import Mathlib

/-!
A shallow embedding of `pychecked/type_checking.py` (the pychecked library):
the validation/coercion engine `_do_validation`, the `ConfigDict` /
`Config` configuration store, and the `_type_checked` call interceptor,
together with theorems checking the natural-language specification of the
library against this embedding.

Python objects are modelled by the inductive `PyVal`.  Each constructor
carries an `Option Nat` field modelling object identity: objects supplied
by the caller carry `some id` (distinct ids for distinct objects), while
every object freshly constructed by the engine carries `none`.  Returning
the argument itself (Python `return value`) therefore yields a `PyVal`
that is definitionally equal to the input, while any rebuilt container or
coerced scalar differs from every caller-supplied object in its identity
field.  Machine-level `float` is modelled exactly by `Rat` on the plain
decimal strings the library manipulates.
-/

namespace Pychecked

/-- The builtin classes that can appear as (parts of) annotations.  These
are the type objects the source manipulates through `isinstance`,
`callable` and `__name__`. -/
inductive PyType where
  | bool | int | float | str | bytes | list | tuple | dict | complex
  deriving DecidableEq, Repr

/-- `T.__name__` for each modelled builtin class. -/
def PyType.name : PyType → String
  | .bool => "bool"
  | .int => "int"
  | .float => "float"
  | .str => "str"
  | .bytes => "bytes"
  | .list => "list"
  | .tuple => "tuple"
  | .dict => "dict"
  | .complex => "complex"

/-- A CPython float, modelled as an exact fraction: the numeric strings
the library manipulates are plain decimals, for which this model is
exact.  The representation is not normalized (the denominator stays a
power of ten as produced by parsing); numeric comparison is by
cross-multiplication. -/
structure PyFloat where
  num : Int
  den : Nat
  deriving DecidableEq, Repr

def PyFloat.ofInt (n : Int) : PyFloat := ⟨n, 1⟩

def PyFloat.zero : PyFloat := ⟨0, 1⟩

def PyFloat.one : PyFloat := ⟨1, 1⟩

def PyFloat.neg (q : PyFloat) : PyFloat := ⟨-q.num, q.den⟩

def PyFloat.isZero (q : PyFloat) : Bool := q.num == 0

/-- Numeric equality of two float values. -/
def pyFloatEq (a b : PyFloat) : Bool :=
  a.num * (b.den : Int) == b.num * (a.den : Int)

/-- Python runtime values.  The first field of every constructor is the
object's identity: `some id` for pre-existing caller objects, `none` for
objects created by the code under verification.  `bytes` payloads are
modelled as their decoded text (each char one byte), floats as exact
fractions. -/
inductive PyVal where
  | vbool (oid : Option Nat) (b : Bool)
  | vint (oid : Option Nat) (n : Int)
  | vfloat (oid : Option Nat) (q : PyFloat)
  | vcomplex (oid : Option Nat) (re im : PyFloat)
  | vstr (oid : Option Nat) (s : String)
  | vbytes (oid : Option Nat) (s : String)
  | vnone (oid : Option Nat)
  | vlist (oid : Option Nat) (xs : List PyVal)
  | vtuple (oid : Option Nat) (xs : List PyVal)
  | vdict (oid : Option Nat) (es : List (PyVal × PyVal))
  deriving Repr

/-- `type(value).__name__`. -/
def PyVal.typeName : PyVal → String
  | .vbool .. => "bool"
  | .vint .. => "int"
  | .vfloat .. => "float"
  | .vcomplex .. => "complex"
  | .vstr .. => "str"
  | .vbytes .. => "bytes"
  | .vnone .. => "NoneType"
  | .vlist .. => "list"
  | .vtuple .. => "tuple"
  | .vdict .. => "dict"

/-- `isinstance(value, T)` for the modelled builtin classes.  `bool` is a
subclass of `int`, so `isinstance(True, int)` is true; no other subclass
relation holds between the modelled classes. -/
def isinstance : PyVal → PyType → Bool
  | .vbool .., .bool => true
  | .vbool .., .int => true
  | .vint .., .int => true
  | .vfloat .., .float => true
  | .vcomplex .., .complex => true
  | .vstr .., .str => true
  | .vbytes .., .bytes => true
  | .vlist .., .list => true
  | .vtuple .., .tuple => true
  | .vdict .., .dict => true
  | _, _ => false

/-- An annotation value (`type_` in the source): a builtin class, a list
or tuple literal of annotations, or a dict literal of annotation pairs. -/
inductive Shape where
  | ty (t : PyType)
  | slist (es : List Shape)
  | stuple (es : List Shape)
  | sdict (es : List (Shape × Shape))
  deriving Repr

/-- The exceptions the modelled code can raise. -/
inductive PyErr where
  | typeError (msg : String)
  | valueError (msg : String)
  | attributeError (msg : String)
  deriving DecidableEq, Repr

/-- The static configuration dictionary: fixed keys `active`, `coerce`,
`debug`, boolean values (defaults `True`, `True`, `False`). -/
structure ConfigDict where
  active : Bool
  coerce : Bool
  debug : Bool
  deriving DecidableEq, Repr

mutual

/-- Python `repr(value)` for the modelled values (used by `str` on
containers).  Float rendering is exact for decimal-representable
rationals, which is the only form the engine ever produces from the
decimal strings it parses. -/
def pyRepr : PyVal → String
  | .vbool _ b => if b then "True" else "False"
  | .vint _ n => toString n
  | .vfloat _ q => floatStr q
  | .vcomplex _ re im => "(" ++ floatStr re ++ "+" ++ floatStr im ++ "j)"
  | .vstr _ s => "\x27" ++ s ++ "\x27"
  | .vbytes _ s => "b\x27" ++ s ++ "\x27"
  | .vnone _ => "None"
  | .vlist _ xs => "[" ++ pyReprList xs ++ "]"
  | .vtuple _ [x] => "(" ++ pyRepr x ++ ",)"
  | .vtuple _ xs => "(" ++ pyReprList xs ++ ")"
  | .vdict _ es => "\x7b" ++ pyReprEntries es ++ "\x7d"

def pyReprList : List PyVal → String
  | [] => ""
  | [x] => pyRepr x
  | x :: xs => pyRepr x ++ ", " ++ pyReprList xs

def pyReprEntries : List (PyVal × PyVal) → String
  | [] => ""
  | [(k, v)] => pyRepr k ++ ": " ++ pyRepr v
  | (k, v) :: es => pyRepr k ++ ": " ++ pyRepr v ++ ", " ++ pyReprEntries es

/-- Decimal rendering of a float value; falls back to the raw fraction
when the value has no finite decimal expansion (never produced by the
modelled code). -/
def floatStr (q : PyFloat) : String :=
  if q.den = 1 then toString q.num ++ ".0"
  else
    match (List.range 30).find? (fun k => (10 ^ (k + 1)) % q.den = 0) with
    | some k =>
      let k := k + 1
      let scaled : Int := q.num * ((10 ^ k) / (q.den : Int))
      let mag : Nat := scaled.natAbs
      let intPart := mag / 10 ^ k
      let fracPart := mag % 10 ^ k
      let fracS := toString fracPart
      let fracS := String.mk (List.replicate (k - fracS.length) '0') ++ fracS
      (if scaled < 0 then "-" else "") ++ toString intPart ++ "." ++ fracS
    | none => toString q.num ++ "/" ++ toString q.den

end

/-- Python `str(value)`: the string itself for `str` objects, `repr`
otherwise (for the modelled value forms). -/
def pyStrVal (v : PyVal) : String :=
  match v with
  | .vstr _ s => s
  | v => pyRepr v

/-- Python truthiness, as used by the `bool` constructor. -/
def pyTruthy : PyVal → Bool
  | .vbool _ b => b
  | .vint _ n => n ≠ 0
  | .vfloat _ q => !q.isZero
  | .vcomplex _ re im => !re.isZero || !im.isZero
  | .vstr _ s => s ≠ ""
  | .vbytes _ s => s ≠ ""
  | .vnone _ => false
  | .vlist _ xs => !xs.isEmpty
  | .vtuple _ xs => !xs.isEmpty
  | .vdict _ es => !es.isEmpty

/-- All-decimal-digit parse of a character list. -/
def parseDigits (cs : List Char) : Option Nat :=
  if cs.isEmpty then none
  else if cs.all Char.isDigit then
    some (cs.foldl (fun a c => a * 10 + (c.toNat - 48)) 0)
  else none

/-- Whitespace stripping as done by the numeric constructors. -/
def isPySpace (c : Char) : Bool :=
  c == ' ' || c == '\t' || c == '\n' || c == '\r'

/-- Strip leading and trailing whitespace from a character list. -/
def trimChars (cs : List Char) : List Char :=
  ((cs.dropWhile isPySpace).reverse.dropWhile isPySpace).reverse

/-- Python `int(s)` on a string: surrounding whitespace, an optional
sign, then decimal digits only (`"10.4"` and `"15.0"` fail). -/
def parseIntStr (s : String) : Option Int :=
  match trimChars s.data with
  | '+' :: rest => (parseDigits rest).map Int.ofNat
  | '-' :: rest => (parseDigits rest).map (fun n => -(Int.ofNat n))
  | cs => (parseDigits cs).map Int.ofNat

/-- Python `float(s)` on a plain decimal string: surrounding whitespace,
optional sign, digits with an optional single point (at least one digit
overall).  Exponent forms and the named special values are not used by
the library and are not modelled. -/
def parseFloatStr (s : String) : Option PyFloat :=
  let core : List Char → Option PyFloat := fun cs =>
    let intCs := cs.takeWhile (fun c => c ≠ '.')
    let rest := cs.dropWhile (fun c => c ≠ '.')
    let build : Nat → Nat → Nat → PyFloat := fun ip fp k =>
      ⟨Int.ofNat (ip * 10 ^ k + fp), 10 ^ k⟩
    match rest with
    | [] => (parseDigits intCs).map (fun n => PyFloat.ofInt (Int.ofNat n))
    | _ :: fracCs =>
      if fracCs.isEmpty then
        (parseDigits intCs).map (fun n => PyFloat.ofInt (Int.ofNat n))
      else if intCs.isEmpty then
        (parseDigits fracCs).map (fun f => build 0 f fracCs.length)
      else
        match parseDigits intCs, parseDigits fracCs with
        | some ip, some fp => some (build ip fp fracCs.length)
        | _, _ => none
  match trimChars s.data with
  | '+' :: rest => core rest
  | '-' :: rest => (core rest).map PyFloat.neg
  | cs => core cs

/-- Python `float(value)`: numbers by value, strings and bytes by
decimal parse, everything else a `TypeError` (`none`). -/
def pyFloat : PyVal → Option PyFloat
  | .vbool _ b => some (if b then .one else .zero)
  | .vint _ n => some (.ofInt n)
  | .vfloat _ q => some q
  | .vstr _ s => parseFloatStr s
  | .vbytes _ s => parseFloatStr s
  | _ => none

/-- `int(q)` on a float value: truncation toward zero. -/
def truncRat (q : PyFloat) : Int :=
  Int.tdiv q.num (q.den : Int)

/-- Iteration of a value into a list, as performed by the `list` and
`tuple` constructors: sequences give their elements, dicts their keys,
text its characters, bytes its byte values; other values are not
iterable (`none`, a `TypeError`). -/
def pyIter : PyVal → Option (List PyVal)
  | .vlist _ xs => some xs
  | .vtuple _ xs => some xs
  | .vdict _ es => some (es.map Prod.fst)
  | .vstr _ s => some (s.data.map (fun c => .vstr none (String.mk [c])))
  | .vbytes _ s => some (s.data.map (fun c => .vint none (c.toNat : Int)))
  | _ => none

mutual

/-- Hashability of a value, checked by dictionary insertion: lists and
dicts are unhashable, a tuple is hashable when its elements are. -/
def hashable : PyVal → Bool
  | .vlist .. => false
  | .vdict .. => false
  | .vtuple _ xs => hashableList xs
  | _ => true

def hashableList : List PyVal → Bool
  | [] => true
  | x :: xs => hashable x && hashableList xs

end

/-- A numeric value as a complex number, for Python `==` across the
numeric tower (`True == 1`, `1 == 1.0`, ...). -/
def numAsComplex : PyVal → Option (PyFloat × PyFloat)
  | .vbool _ b => some (if b then .one else .zero, .zero)
  | .vint _ n => some (.ofInt n, .zero)
  | .vfloat _ q => some (q, .zero)
  | .vcomplex _ re im => some (re, im)
  | _ => none

mutual

/-- Python `==` as consulted by dictionary key lookup.  Only hashable
values ever reach a key comparison (`dictSetItem` raises on unhashable
keys first), so the list and dict cases are never consulted. -/
def pyKeyEq (a b : PyVal) : Bool :=
  match numAsComplex a, numAsComplex b with
  | some x, some y => pyFloatEq x.1 y.1 && pyFloatEq x.2 y.2
  | _, _ =>
    match a, b with
    | .vstr _ x, .vstr _ y => x == y
    | .vbytes _ x, .vbytes _ y => x == y
    | .vnone _, .vnone _ => true
    | .vtuple _ xs, .vtuple _ ys => pyKeyEqList xs ys
    | _, _ => false

def pyKeyEqList : List PyVal → List PyVal → Bool
  | [], [] => true
  | x :: xs, y :: ys => pyKeyEq x y && pyKeyEqList xs ys
  | _, _ => false

end

/-- `d[k] = v` on the modelled dictionary (an ordered entry list, as in
CPython): an unhashable key raises `TypeError`; an existing equal key
keeps its original key object and is given the new value; otherwise the
entry is appended. -/
def dictSetItem (es : List (PyVal × PyVal)) (k v : PyVal) :
    Except PyErr (List (PyVal × PyVal)) :=
  if hashable k then
    if es.any (fun e => pyKeyEq e.1 k) then
      .ok (es.map (fun e => if pyKeyEq e.1 k then (e.1, v) else e))
    else
      .ok (es ++ [(k, v)])
  else
    .error (.typeError ("unhashable type: \x27" ++ k.typeName ++ "\x27"))

/-- Builds a dict from an iterable of key/value pairs, as the `dict`
constructor does; any malformed element or unhashable key is a
`TypeError` (`none`). -/
def pairsToDict : List PyVal → List (PyVal × PyVal) → Option (List (PyVal × PyVal))
  | [], acc => some acc
  | x :: rest, acc =>
    match x with
    | .vtuple _ [k, v] => match dictSetItem acc k v with
      | .ok acc2 => pairsToDict rest acc2
      | .error _ => none
    | .vlist _ [k, v] => match dictSetItem acc k v with
      | .ok acc2 => pairsToDict rest acc2
      | .error _ => none
    | _ => none

/-- Python `type_(value)` for the modelled builtin classes as called at
the `callable(type_)` fallback; `none` models a raised `ValueError` or
`TypeError` (the two exceptions the caller catches — the modelled
constructors raise no others).  Every object built here is fresh
(identity `none`). -/
def pyConstruct : PyType → PyVal → Option PyVal
  | .bool, v => some (.vbool none (pyTruthy v))
  | .int, v => match v with
    | .vbool _ b => some (.vint none (if b then 1 else 0))
    | .vint _ n => some (.vint none n)
    | .vfloat _ q => some (.vint none (truncRat q))
    | .vstr _ s => (parseIntStr s).map (.vint none ·)
    | .vbytes _ s => (parseIntStr s).map (.vint none ·)
    | _ => none
  | .float, v => (pyFloat v).map (.vfloat none ·)
  | .str, v => some (.vstr none (pyStrVal v))
  | .bytes, v => match v with
    | .vbytes _ s => some (.vbytes none s)
    | .vint _ n =>
      if n < 0 then none
      else some (.vbytes none (String.mk (List.replicate n.toNat (Char.ofNat 0))))
    | _ => none
  | .list, v => (pyIter v).map (.vlist none ·)
  | .tuple, v => (pyIter v).map (.vtuple none ·)
  | .dict, v => match v with
    | .vdict _ es => some (.vdict none es)
    | .vlist _ xs => (pairsToDict xs []).map (.vdict none ·)
    | .vtuple _ xs => (pairsToDict xs []).map (.vdict none ·)
    | _ => none
  | .complex, v => match v with
    | .vbool _ b => some (.vcomplex none (if b then .one else .zero) .zero)
    | .vint _ n => some (.vcomplex none (.ofInt n) .zero)
    | .vfloat _ q => some (.vcomplex none q .zero)
    | .vcomplex _ re im => some (.vcomplex none re im)
    | .vstr _ s => (parseFloatStr s).map (fun q => .vcomplex none q .zero)
    | _ => none

mutual

/-- Python `str(type_)` on an annotation value: `repr` of the class or
container literal (`str({int: str})` is `"{<class 'int'>: <class
'str'>}"`). -/
def reprShape : Shape → String
  | .ty t => "<class \x27" ++ t.name ++ "\x27>"
  | .slist es => "[" ++ reprShapeList es ++ "]"
  | .stuple [e] => "(" ++ reprShape e ++ ",)"
  | .stuple es => "(" ++ reprShapeList es ++ ")"
  | .sdict es => "\x7b" ++ reprShapeEntries es ++ "\x7d"

def reprShapeList : List Shape → String
  | [] => ""
  | [s] => reprShape s
  | s :: ss => reprShape s ++ ", " ++ reprShapeList ss

def reprShapeEntries : List (Shape × Shape) → String
  | [] => ""
  | [(k, v)] => reprShape k ++ ": " ++ reprShape v
  | (k, v) :: es => reprShape k ++ ": " ++ reprShape v ++ ", " ++ reprShapeEntries es

end

/-- The Python class name of an annotation object
(`type_.__class__.__name__`). -/
def shapeClassName : Shape → String
  | .ty _ => "type"
  | .slist _ => "list"
  | .stuple _ => "tuple"
  | .sdict _ => "dict"

/-- `subtype.__name__`: only class objects have a `__name__`. -/
def shapeSubName : Shape → Option String
  | .ty t => some t.name
  | _ => none

/-- `[subtype.__name__ for subtype in type_]`: every subshape's
`__name__`, or `none` when some subshape is not a class (the
comprehension raises `AttributeError` there). -/
def subNames : List Shape → Option (List String)
  | [] => some []
  | s :: ss =>
    match shapeSubName s, subNames ss with
    | some n, some ns => some (n :: ns)
    | _, _ => none

/-- `", ".join([subtype.__name__ for subtype in type_])`: the list
comprehension evaluates every name and raises `AttributeError` at the
first subshape that is not a class. -/
def joinSubNames (subs : List Shape) : Except PyErr String :=
  match subNames subs with
  | some ns => .ok (String.intercalate ", " ns)
  | none =>
    let offender := (subs.find? (fun s => (shapeSubName s).isNone)).getD (.ty .int)
    .error (.attributeError ("\x27" ++ shapeClassName offender ++
      "\x27 object has no attribute \x27__name__\x27"))

/-- `_raise_error` of `_do_validation`: builds the expected-type name
from the annotation (`__name__` for a class, `"a <kind> of <names>"` for
a container — iterating a dict annotation yields its keys) and raises
`TypeError("<value> is of type <actual>, expecting <expected>.")`.  No
modelled annotation lacks both `__name__` and `__iter__`, so the final
`type_.__class__.__name__` fallback of the source is unreachable here. -/
def raiseError (type_ : Shape) (value : PyVal) : PyErr :=
  let mismatch : String → PyErr := fun typeName =>
    .typeError (pyStrVal value ++ " is of type " ++ value.typeName ++
      ", expecting " ++ typeName ++ ".")
  match type_ with
  | .ty t => mismatch t.name
  | .slist es => match joinSubNames es with
    | .ok ns => mismatch ("a list of " ++ ns)
    | .error e => e
  | .stuple es => match joinSubNames es with
    | .ok ns => mismatch ("a tuple of " ++ ns)
    | .error e => e
  | .sdict es => match joinSubNames (es.map Prod.fst) with
    | .ok ns => mismatch ("a dict of " ++ ns)
    | .error e => e

/-- The `TypeError` raised on a fixed-arity length mismatch (source
lines 245-250): `"Argument length mismatch. Expected a <kind> of <t1>,
<t2>, ...."`; as in `_raise_error`, a subshape without `__name__` makes
the message comprehension itself raise `AttributeError`. -/
def lengthMismatchError (kind : String) (subs : List Shape) : PyErr :=
  match joinSubNames subs with
  | .ok ns => .typeError ("Argument length mismatch. Expected a " ++ kind ++
      " of " ++ ns ++ ".")
  | .error e => e

/-- Python `value is type_` where `value` is known to be a `bool`
instance (source line 201).  A modelled runtime value is never a class
object, so this identity test is always false — as in CPython, where the
conjunction `isinstance(value, bool) and value is type_` is
unsatisfiable (`True`/`False` are not classes, and line 198 already
established that `type_` is one). -/
def valueIsTypeObject (_value : PyVal) (_type : PyType) : Bool :=
  false

/-- `isinstance(value, (str, int, bytes, complex))` (source line 225);
true for booleans as well, since `bool` subclasses `int`. -/
def isScalarWrap (v : PyVal) : Bool :=
  isinstance v .str || isinstance v .int || isinstance v .bytes || isinstance v .complex

/-- `value.decode()`: the bytes payload is modelled as its decoded text,
so decoding returns a fresh `str` with the same payload. -/
def bytesDecode (s : String) : PyVal :=
  .vstr none s

/-- Lines 197-206 and 251-264 of `_do_validation`, for an annotation
that is a class object `t`.  For such an annotation the dict branch
(line 208) and the sequence branch (line 222) never apply —
`isinstance(type_, dict)` and `isinstance(type_, (list, tuple))` are
false for a class — so after a failed match with coercion enabled,
control reaches the bytes-decode check and the `callable(type_)`
fallback (every builtin class is callable), with the `int(float(value))`
retry reserved for the exact class `int` under coercion. -/
def validateType (cfg : ConfigDict) (t : PyType) (value : PyVal) :
    Except PyErr PyVal :=
  let is_bool := isinstance value .bool
  if (is_bool && valueIsTypeObject value t) || (!is_bool && isinstance value t) then
    .ok value
  else if !cfg.coerce then
    .error (raiseError (.ty t) value)
  else
    match t, value with
    | .str, .vbytes _ s => .ok (bytesDecode s)
    | _, _ =>
      match pyConstruct t value with
      | some r => .ok r
      | none =>
        if t = .int && cfg.coerce then
          match pyFloat value with
          | some q => .ok (.vint none (truncRat q))
          | none => .error (raiseError (.ty t) value)
        else
          .error (raiseError (.ty t) value)

/-- The concrete kind of a sequence annotation (`type(type_)`). -/
inductive SeqKind where
  | list | tuple
  deriving DecidableEq, Repr

/-- `type(type_)(validated_values)`: rebuild a fresh sequence of the
annotation's own concrete kind. -/
def mkSeq (kind : SeqKind) (xs : List PyVal) : PyVal :=
  match kind with
  | .list => .vlist none xs
  | .tuple => .vtuple none xs

def SeqKind.name : SeqKind → String
  | .list => "list"
  | .tuple => "tuple"

/-- Rebuilds the annotation object of a sequence branch from its kind
and element annotations (for error construction). -/
def seqShape (kind : SeqKind) (subs : List Shape) : Shape :=
  match kind with
  | .list => .slist subs
  | .tuple => .stuple subs

theorem Shape.sizeOf_pos (s : Shape) : 0 < sizeOf s := by
  cases s <;> simp

/-- The prelude of the list/tuple annotation branch (source lines
223-234): a value that is not already a list or tuple is, with coercion
enabled, wrapped as a one-element sequence when scalar-like
(`str`/`int`/`bytes`/`complex`, booleans included) or else iterated into
a list, `_raise_error` firing on non-iterables; with coercion disabled
`_raise_error` fires immediately. -/
def seqElems (cfg : ConfigDict) (kind : SeqKind) (subs : List Shape)
    (value : PyVal) : Except PyErr (List PyVal) :=
  match value with
  | .vlist _ xs => .ok xs
  | .vtuple _ xs => .ok xs
  | v =>
    if cfg.coerce then
      if isScalarWrap v then .ok [v]
      else
        match pyIter v with
        | some xs => .ok xs
        | none => .error (raiseError (seqShape kind subs) v)
    else
      .error (raiseError (seqShape kind subs) v)

mutual

/-- `_do_validation(type_, value)` (source lines 156-268), reading the
`coerce` policy from `cfg`.  `Config.get("debug")` only gates stderr
logging of intermediate errors (`_log`), which has no effect on the
result and is not modelled.  The branches, in source order: empty-list /
empty-dict annotation normalization to the `list` / `dict` classes
(192-195); the class-annotation short circuit with its fall-through
coercion tail (197-206, 251-264, in `validateType`); the dict/dict
rebuild (208-221); the list/tuple branch (222-250); and the final
not-a-type-or-callable `ValueError` (265-268), which for the modelled
annotations is reached exactly by a non-empty dict annotation paired
with a non-dict value (a dict instance is neither callable nor a
list/tuple). -/
def _do_validation (cfg : ConfigDict) (type_ : Shape) (value : PyVal) :
    Except PyErr PyVal :=
  match type_ with
  | .slist [] => validateType cfg .list value
  | .sdict [] => validateType cfg .dict value
  | .ty t => validateType cfg t value
  | .sdict ((keyType, valueType) :: _rest) =>
    match value with
    | .vdict _ entries =>
      match validateEntries cfg keyType valueType entries [] with
      | .ok validated => .ok (.vdict none validated)
      | .error e => .error e
    | _ =>
      .error (.valueError ("type " ++ reprShape (.sdict ((keyType, valueType) :: _rest)) ++
        " is not a type or callable."))
  | .slist (s :: ss) => validateSeq cfg .list (s :: ss) value
  | .stuple es => validateSeq cfg .tuple es value
termination_by (sizeOf type_, 0)

/-- The list/tuple annotation branch (source lines 222-250): ensure the
value is an ordered container (wrapping scalar-likes, else iterating,
when coercion is enabled; raising otherwise), then dispatch on lengths:
equal — element-wise validation rebuilt with the annotation's concrete
kind; annotation of length one — broadcast into a plain list; otherwise
the length-mismatch `TypeError`. -/
def validateSeq (cfg : ConfigDict) (kind : SeqKind) (subs : List Shape)
    (value : PyVal) : Except PyErr PyVal :=
  match seqElems cfg kind subs value with
  | .error e => .error e
  | .ok elems =>
    if subs.length = elems.length then
      match validateZip cfg subs elems with
      | .ok validated => .ok (mkSeq kind validated)
      | .error e => .error e
    else
      match subs with
      | [s0] =>
        match validateBroadcast cfg s0 elems with
        | .ok validated => .ok (.vlist none validated)
        | .error e => .error e
      | _ => .error (lengthMismatchError kind.name subs)
termination_by (sizeOf subs, 1)

/-- `for _type, _value in zip(type_, value): validated_values.append(...)`
(source lines 236-238). -/
def validateZip (cfg : ConfigDict) (subs : List Shape) (vs : List PyVal) :
    Except PyErr (List PyVal) :=
  match subs, vs with
  | s :: ss, v :: rest =>
    match _do_validation cfg s v with
    | .ok r =>
      match validateZip cfg ss rest with
      | .ok rs => .ok (r :: rs)
      | .error e => .error e
    | .error e => .error e
  | _, _ => .ok []
termination_by (sizeOf subs, 0)

/-- `for val in value: validated_values.append(_do_validation(type_[0], val))`
(source lines 241-243). -/
def validateBroadcast (cfg : ConfigDict) (s : Shape) (vs : List PyVal) :
    Except PyErr (List PyVal) :=
  match vs with
  | [] => .ok []
  | v :: rest =>
    match _do_validation cfg s v with
    | .ok r =>
      match validateBroadcast cfg s rest with
      | .ok rs => .ok (r :: rs)
      | .error e => .error e
    | .error e => .error e
termination_by (sizeOf s, 2 + vs.length)

/-- `for key_, value_ in value.items(): validated_values[...] = ...`
(source lines 217-220).  In the assignment
`validated_values[_do_validation(key_type, key_)] = _do_validation(value_type, value_)`
Python evaluates the right-hand side before the subscript, so the entry
value is validated before its key. -/
def validateEntries (cfg : ConfigDict) (keyType valueType : Shape)
    (entries acc : List (PyVal × PyVal)) : Except PyErr (List (PyVal × PyVal)) :=
  match entries with
  | [] => .ok acc
  | (k, v) :: rest =>
    match _do_validation cfg valueType v with
    | .error e => .error e
    | .ok v2 =>
      match _do_validation cfg keyType k with
      | .error e => .error e
      | .ok k2 =>
        match dictSetItem acc k2 v2 with
        | .error e => .error e
        | .ok acc2 => validateEntries cfg keyType valueType rest acc2
termination_by (1 + max (sizeOf keyType) (sizeOf valueType), 1 + entries.length)

end

/-- `key in self` for the `ConfigDict`: its keys are fixed to `active`,
`coerce` and `debug` (the defaults created by `Config.config()`), and
`__setitem__` never adds a key. -/
def configHasKey (key : String) : Bool :=
  key == "active" || key == "coerce" || key == "debug"

/-- `ConfigDict.__setitem__` (source lines 54-62): an unknown key raises
`ValueError("<key> is not a valid config key.")`; a known key accepts
exactly boolean values, anything else raising
`ValueError("<value> is not a valid config value.")`. -/
def ConfigDict.setItem (c : ConfigDict) (key : String) (value : PyVal) :
    Except PyErr ConfigDict :=
  if !configHasKey key then
    .error (.valueError (key ++ " is not a valid config key."))
  else
    match value with
    | .vbool _ b =>
      .ok (if key == "active" then { c with active := b }
           else if key == "coerce" then { c with coerce := b }
           else { c with debug := b })
    | v => .error (.valueError (pyStrVal v ++ " is not a valid config value."))

/-- `Config.get(key)` (default `None`, modelled by `none`). -/
def ConfigDict.get (c : ConfigDict) (key : String) : Option Bool :=
  if key == "active" then some c.active
  else if key == "coerce" then some c.coerce
  else if key == "debug" then some c.debug
  else none

/-- `Config.set(key, value)`: delegates to `ConfigDict.__setitem__`. -/
def ConfigDict.set (c : ConfigDict) (key : String) (value : PyVal) :
    Except PyErr ConfigDict :=
  c.setItem key value

/-- The default configuration created on first access:
`ConfigDict(active=True, coerce=True, debug=False)`. -/
def defaultConfig : ConfigDict :=
  { active := true, coerce := true, debug := false }

/-- The result of `inspect.getfullargspec(func)` as consumed by the
interceptor: the ordered declared parameter names, the `*args` name and
the `**kwargs` name (if any). -/
structure FuncSig where
  args : List String
  varargs : Option String
  varkw : Option String

/-- `name in annotations` / `annotations[name]` on the function's
annotation mapping. -/
def lookupAnn (annotations : List (String × Shape)) (name : String) : Option Shape :=
  (annotations.find? (fun p => p.1 == name)).map Prod.snd

/-- `func_sig.args[i]`, falling back to `func_sig.varargs` on
`IndexError` (the argument is a `*arg`); the result may be Python
`None` when there is no `*args` parameter. -/
def argNameAt (func_sig : FuncSig) (i : Nat) : Option String :=
  match func_sig.args.get? i with
  | some n => some n
  | none => func_sig.varargs

/-- The positional loop of `_type_checked` (source lines 125-134):
each positional value whose resolved parameter name is annotated is
validated, the rest pass through; an unresolvable name (`None`) is never
in the annotation mapping. -/
def validateArgs (cfg : ConfigDict) (annotations : List (String × Shape))
    (func_sig : FuncSig) : List PyVal → Nat → Except PyErr (List PyVal)
  | [], _ => pure []
  | arg :: rest, i => do
    let v ← match argNameAt func_sig i with
      | some name =>
        match lookupAnn annotations name with
        | some shape => _do_validation cfg shape arg
        | none => pure arg
      | none => pure arg
    let vs ← validateArgs cfg annotations func_sig rest (i + 1)
    pure (v :: vs)

/-- The keyword loop of `_type_checked` (source lines 136-144): a kwarg
with its own annotation is validated against it; otherwise, a name that
is not a declared parameter is validated against the `**kwargs`
annotation when that exists; everything else passes through. -/
def validateKwarg (cfg : ConfigDict) (annotations : List (String × Shape))
    (func_sig : FuncSig) (kwarg : String) (kwvalue : PyVal) : Except PyErr PyVal :=
  match lookupAnn annotations kwarg with
  | some shape => _do_validation cfg shape kwvalue
  | none =>
    if !func_sig.args.contains kwarg then
      match func_sig.varkw with
      | some vk =>
        match lookupAnn annotations vk with
        | some shape => _do_validation cfg shape kwvalue
        | none => pure kwvalue
      | none => pure kwvalue
    else
      pure kwvalue

/-- `_type_checked` (source lines 112-147), returning the argument lists
the wrapped function is finally invoked with.  When `active` is false
the original arguments are passed through verbatim; otherwise each
annotated argument is replaced by its validated value
(`kwargs.update(v_kwargs)` keeps unannotated kwargs untouched, in
order). -/
def _type_checked (cfg : ConfigDict) (annotations : List (String × Shape))
    (func_sig : FuncSig) (args : List PyVal) (kwargs : List (String × PyVal)) :
    Except PyErr (List PyVal × List (String × PyVal)) :=
  if !(cfg.get "active").getD false then
    .ok (args, kwargs)
  else do
    let v_args ← validateArgs cfg annotations func_sig args 0
    let v_kwargs ← kwargs.mapM (fun p => do
      let v ← validateKwarg cfg annotations func_sig p.1 p.2
      pure (p.1, v))
    pure (v_args, v_kwargs)

/-! ## Theorems -/

/-- **C1.** The claim reads the scalar match as: a boolean `b` satisfies
`Scalar(T)` — returning `b` unchanged — iff `T` is exactly `bool`; in
particular `validate(Scalar(bool), True)` with coercion disabled returns
`True` unchanged.  The code disagrees: the boolean arm of the match
condition, `is_bool and value is type_` (line 201), compares the boolean
*value* with the *class* by object identity and is therefore
unsatisfiable, so a boolean never takes the identity path — even for
`bool` itself.  With coercion disabled, `validate(Scalar(bool), True)`
raises the self-contradictory `TypeError "True is of type bool,
expecting bool."`; only the claim's second half
(`validate(Scalar(int), True)` failing) holds. -/
theorem C1_bool_never_matches :
    _do_validation ⟨true, false, false⟩ (.ty .bool) (.vbool (some 0) true) =
      .error (.typeError "True is of type bool, expecting bool.") ∧
    _do_validation ⟨true, false, false⟩ (.ty .int) (.vbool (some 0) true) =
      .error (.typeError "True is of type bool, expecting int.") := by
  constructor <;> (unfold _do_validation; rfl)

/-- **C3.** Identity preservation for already-satisfying values fails on
the code for booleans: `True` satisfies `Scalar(bool)` in the claim's
sense, yet with coercion disabled the engine raises instead of returning
the object (same root cause as C1: the dead identity condition on line
201).  For a non-boolean value whose runtime type matches, the engine
does return the very same object, as the second and third conjuncts
illustrate with a caller-supplied `int` under both coercion settings. -/
theorem C3_identity_broken_for_bool :
    _do_validation ⟨true, false, false⟩ (.ty .bool) (.vbool (some 7) true) =
      .error (.typeError "True is of type bool, expecting bool.") ∧
    _do_validation ⟨true, false, false⟩ (.ty .int) (.vint (some 7) 5) =
      .ok (.vint (some 7) 5) ∧
    _do_validation ⟨true, true, false⟩ (.ty .int) (.vint (some 7) 5) =
      .ok (.vint (some 7) 5) := by
  refine ⟨?_, ?_, ?_⟩ <;> (unfold _do_validation; rfl)

/-- **C9.** When the `active` key is false, the interceptor passes every
positional and keyword argument through verbatim: the wrapped function
is invoked with exactly the original objects, no validation and no
failure, whatever the declared annotations. -/
theorem C9_inactive_passthrough (cfg : ConfigDict)
    (annotations : List (String × Shape)) (func_sig : FuncSig)
    (args : List PyVal) (kwargs : List (String × PyVal))
    (h : cfg.active = false) :
    _type_checked cfg annotations func_sig args kwargs = .ok (args, kwargs) := by
  unfold _type_checked
  simp [ConfigDict.get, h]

/-- Witness for C9: the spec's deactivation scenario — `f` declaring
`(int, str, float)` called with `("123", False, 40)` succeeds, passing
the exact original objects through. -/
theorem C9_witness :
    _type_checked ⟨false, true, false⟩
      [("ok", .ty .int), ("then", .ty .str), ("sure", .ty .float)]
      ⟨["ok", "then", "sure"], none, none⟩
      [.vstr (some 0) "123", .vbool (some 1) false, .vint (some 2) 40] [] =
      .ok ([.vstr (some 0) "123", .vbool (some 1) false, .vint (some 2) 40], []) :=
  C9_inactive_passthrough _ _ _ _ _ rfl

/-- **C10.** A non-empty dict annotation paired with a value that is not
a dict never coerces: whatever the configuration, the engine falls past
every branch (a dict instance is not a class, not a list/tuple, not
callable) and raises the invalid-annotation
`ValueError("type <shape> is not a type or callable.")` — not a
`TypeError`. -/
theorem C10_invalid_mapping_shape (cfg : ConfigDict) (keyType valueType : Shape)
    (rest : List (Shape × Shape)) (value : PyVal)
    (h : isinstance value .dict = false) :
    _do_validation cfg (.sdict ((keyType, valueType) :: rest)) value =
      .error (.valueError ("type " ++ reprShape (.sdict ((keyType, valueType) :: rest)) ++
        " is not a type or callable.")) := by
  unfold _do_validation
  cases value <;> simp_all [isinstance]

/-- Witness for C10: `validate({int: str}, 1)` under strict (no-coerce)
configuration raises the exact invalid-annotation message. -/
theorem C10_witness :
    _do_validation ⟨true, false, false⟩ (.sdict [(.ty .int, .ty .str)]) (.vint (some 0) 1) =
      .error (.valueError
        "type \x7b<class \x27int\x27>: <class \x27str\x27>\x7d is not a type or callable.") := by
  have h := C10_invalid_mapping_shape ⟨true, false, false⟩ (.ty .int) (.ty .str) []
    (.vint (some 0) 1) rfl
  simpa [reprShape, reprShapeEntries, PyType.name] using h

/-- **C8.** `Config.set(key, value)` fails with the invalid-key
`ValueError` exactly when `key` is outside the fixed key set, fails with
the invalid-value `ValueError` when the key is known but the value is
not a boolean, and otherwise succeeds — after which `Config.get(key)`
returns the value just set. -/
theorem C8_config_set (c : ConfigDict) (key : String) (value : PyVal) :
    (configHasKey key = false →
      c.set key value = .error (.valueError (key ++ " is not a valid config key."))) ∧
    (configHasKey key = true → isinstance value .bool = false →
      c.set key value = .error (.valueError (pyStrVal value ++ " is not a valid config value."))) ∧
    (∀ oid b, configHasKey key = true → value = .vbool oid b →
      ∃ c2, c.set key value = .ok c2 ∧ c2.get key = some b) := by
  refine ⟨?_, ?_, ?_⟩
  · intro hk
    simp [ConfigDict.set, ConfigDict.setItem, hk]
  · intro hk hv
    cases value <;> simp_all [ConfigDict.set, ConfigDict.setItem, isinstance]
  · rintro oid b hk rfl
    refine ⟨if key == "active" then { c with active := b }
        else if key == "coerce" then { c with coerce := b }
        else { c with debug := b }, ?_, ?_⟩
    · simp [ConfigDict.set, ConfigDict.setItem, hk]
    · simp only [configHasKey, Bool.or_eq_true, beq_iff_eq] at hk
      by_cases h1 : key = "active"
      · subst h1; simp [ConfigDict.get]
      · by_cases h2 : key = "coerce"
        · subst h2; simp [ConfigDict.get]
        · have h3 : key = "debug" := by tauto
          subst h3; simp [ConfigDict.get]

/-- Witness for C8: an unknown key and a non-boolean value fail with the
exact messages from the tests, and a successful `set` of `coerce` to
`False` is immediately visible to `get`. -/
theorem C8_witness :
    (ConfigDict.set ⟨true, true, false⟩ "something_fake" (.vbool none true) =
      .error (.valueError "something_fake is not a valid config key.")) ∧
    (ConfigDict.set ⟨true, true, false⟩ "debug" (.vstr (some 0) "abc") =
      .error (.valueError "abc is not a valid config value.")) ∧
    (∃ c2, ConfigDict.set ⟨true, true, false⟩ "coerce" (.vbool none false) = .ok c2 ∧
      c2.get "coerce" = some false) :=
  ⟨(C8_config_set ⟨true, true, false⟩ "something_fake" (.vbool none true)).1 rfl,
   (C8_config_set ⟨true, true, false⟩ "debug" (.vstr (some 0) "abc")).2.1 rfl rfl,
   (C8_config_set ⟨true, true, false⟩ "coerce" (.vbool none false)).2.2 none false rfl rfl⟩

/-- **C2, counterexample.** The claim promises that *any* ordered
container — list or tuple — is returned as the very same object by
`validate(SequenceAny, value)`.  The empty-list annotation is normalized
to the `list` class (line 193), so a tuple is not an instance and, with
the default coercion, is rebuilt into a fresh plain list: the result is
a different object of a different concrete kind. -/
theorem C2_counterexample :
    _do_validation ⟨true, true, false⟩ (.slist []) (.vtuple (some 0) [.vint (some 1) 1]) =
      .ok (.vlist none [.vint (some 1) 1]) ∧
    (PyVal.vlist none [.vint (some 1) 1] ≠ .vtuple (some 0) [.vint (some 1) 1]) := by
  constructor
  · unfold _do_validation; rfl
  · simp

/-- **C2, amended.** `validate(SequenceAny, v)` returns `v` itself, with
no per-element checking, exactly when `v` is a list; a tuple is not
passed through: with coercion enabled it is rebuilt into a fresh generic
list holding the same element objects, and with coercion disabled the
call fails with the `TypeError` of `_raise_error`. -/
theorem C2_sequence_any (cfg : ConfigDict) (oid : Option Nat) (xs : List PyVal) :
    _do_validation cfg (.slist []) (.vlist oid xs) = .ok (.vlist oid xs) ∧
    (cfg.coerce = true →
      _do_validation cfg (.slist []) (.vtuple oid xs) = .ok (.vlist none xs)) ∧
    (cfg.coerce = false →
      _do_validation cfg (.slist []) (.vtuple oid xs) =
        .error (raiseError (.ty .list) (.vtuple oid xs))) := by
  refine ⟨?_, fun hc => ?_, fun hc => ?_⟩ <;>
    (unfold _do_validation;
     simp [validateType, isinstance, valueIsTypeObject, pyConstruct, pyIter, *])

/-- Witness for C2: a concrete list passes through identically under
both configurations' shared code path, while a concrete tuple is
rebuilt (coercion on) or rejected (coercion off). -/
theorem C2_witness :
    _do_validation ⟨true, true, false⟩ (.slist []) (.vlist (some 3) [.vbool (some 4) true]) =
      .ok (.vlist (some 3) [.vbool (some 4) true]) ∧
    _do_validation ⟨true, true, false⟩ (.slist []) (.vtuple (some 3) [.vbool (some 4) true]) =
      .ok (.vlist none [.vbool (some 4) true]) ∧
    _do_validation ⟨true, false, false⟩ (.slist []) (.vtuple (some 3) [.vbool (some 4) true]) =
      .error (.typeError "(True,) is of type tuple, expecting list.") :=
  ⟨(C2_sequence_any ⟨true, true, false⟩ (some 3) [.vbool (some 4) true]).1,
   (C2_sequence_any ⟨true, true, false⟩ (some 3) [.vbool (some 4) true]).2.1 rfl,
   ((C2_sequence_any ⟨true, false, false⟩ (some 3) [.vbool (some 4) true]).2.2 rfl).trans rfl⟩

/-- Element-wise success of the broadcast loop: when every element
validates, the loop collects exactly the element results, in order. -/
theorem validateBroadcast_of_forall (cfg : ConfigDict) (s : Shape)
    (xs ys : List PyVal)
    (h : List.Forall₂ (fun x y => _do_validation cfg s x = .ok y) xs ys) :
    validateBroadcast cfg s xs = .ok ys := by
  induction h with
  | nil => unfold validateBroadcast; rfl
  | cons hxy _ ih =>
    unfold validateBroadcast
    rw [hxy, ih]

/-- **C5.** A single-element sequence annotation applied to an ordered
container whose length is not 1 broadcasts the element annotation over
every element and returns the results as a fresh plain *list* — even
when the annotation itself was written as a tuple, and whatever the
container kind of the input. -/
theorem C5_broadcast (cfg : ConfigDict) (s : Shape) (oid : Option Nat)
    (xs ys : List PyVal) (hlen : xs.length ≠ 1)
    (h : List.Forall₂ (fun x y => _do_validation cfg s x = .ok y) xs ys) :
    _do_validation cfg (.slist [s]) (.vlist oid xs) = .ok (.vlist none ys) ∧
    _do_validation cfg (.slist [s]) (.vtuple oid xs) = .ok (.vlist none ys) ∧
    _do_validation cfg (.stuple [s]) (.vlist oid xs) = .ok (.vlist none ys) ∧
    _do_validation cfg (.stuple [s]) (.vtuple oid xs) = .ok (.vlist none ys) := by
  have hb := validateBroadcast_of_forall cfg s xs ys h
  have hne : ¬(([s] : List Shape).length = xs.length) := by
    simp only [List.length_singleton]
    exact fun hx => hlen hx.symm
  refine ⟨?_, ?_, ?_, ?_⟩ <;>
    (unfold _do_validation validateSeq;
     simp [seqElems, hb, hne];
     exact fun hx => absurd hx.symm hlen)

/-- Witness for C5: the spec's broadcast example
`validate(Sequence([str]), ["a", "b", 23])` yields the plain list
`["a", "b", "23"]` (original string objects kept, the int coerced), and
the same elements result from a tuple-kinded annotation. -/
theorem C5_witness :
    _do_validation ⟨true, true, false⟩ (.slist [.ty .str])
      (.vlist (some 0) [.vstr (some 1) "a", .vstr (some 2) "b", .vint (some 3) 23]) =
      .ok (.vlist none [.vstr (some 1) "a", .vstr (some 2) "b", .vstr none "23"]) ∧
    _do_validation ⟨true, true, false⟩ (.stuple [.ty .str])
      (.vlist (some 0) [.vstr (some 1) "a", .vstr (some 2) "b", .vint (some 3) 23]) =
      .ok (.vlist none [.vstr (some 1) "a", .vstr (some 2) "b", .vstr none "23"]) := by
  have hf : List.Forall₂
      (fun x y => _do_validation ⟨true, true, false⟩ (.ty .str) x = .ok y)
      [.vstr (some 1) "a", .vstr (some 2) "b", .vint (some 3) 23]
      [.vstr (some 1) "a", .vstr (some 2) "b", .vstr none "23"] := by
    refine .cons ?_ (.cons ?_ (.cons ?_ .nil)) <;> (unfold _do_validation; rfl)
  exact ⟨(C5_broadcast _ _ (some 0) _ _ (by decide) hf).1,
         (C5_broadcast _ _ (some 0) _ _ (by decide) hf).2.2.1⟩

/-- **C6.** With coercion enabled, `validate(Scalar(int), "10.4")`
returns the integer `10`: `int("10.4")` raises, and the engine retries
with `int(float(value))` — a fallback guarded by `type_ is int`, so for
any other class a failed constructor is final.  With coercion disabled
the same call raises `TypeError` at the strict-match gate. -/
theorem C6_int_float_fallback :
    (∀ oid, _do_validation ⟨true, true, false⟩ (.ty .int) (.vstr oid "10.4") =
      .ok (.vint none 10)) ∧
    (∀ oid, _do_validation ⟨true, false, false⟩ (.ty .int) (.vstr oid "10.4") =
      .error (.typeError "10.4 is of type str, expecting int.")) ∧
    (∀ (cfg : ConfigDict) (t : PyType) (v : PyVal), t ≠ .int →
      ((!isinstance v .bool) && isinstance v t) = false →
      (¬(t = .str ∧ ∃ o s, v = .vbytes o s)) →
      pyConstruct t v = none →
      _do_validation cfg (.ty t) v = .error (raiseError (.ty t) v)) := by
  refine ⟨fun oid => ?_, fun oid => ?_, fun cfg t v ht hm hb hc => ?_⟩
  · unfold _do_validation; rfl
  · unfold _do_validation; rfl
  · unfold _do_validation validateType
    cases t <;> cases v <;>
      simp_all [isinstance, valueIsTypeObject]

/-- Witness for C6: the two concrete `"10.4"` behaviours, plus the
absence of the fallback for a non-`int` class (`float("abc")` fails and
the engine raises at once). -/
theorem C6_witness :
    _do_validation ⟨true, true, false⟩ (.ty .int) (.vstr (some 0) "10.4") =
      .ok (.vint none 10) ∧
    _do_validation ⟨true, false, false⟩ (.ty .int) (.vstr (some 0) "10.4") =
      .error (.typeError "10.4 is of type str, expecting int.") ∧
    _do_validation ⟨true, true, false⟩ (.ty .float) (.vstr (some 0) "abc") =
      .error (.typeError "abc is of type str, expecting float.") :=
  ⟨C6_int_float_fallback.1 (some 0),
   C6_int_float_fallback.2.1 (some 0),
   (C6_int_float_fallback.2.2 ⟨true, true, false⟩ .float (.vstr (some 0) "abc")
      (by decide) rfl (by simp) rfl).trans rfl⟩

/-- Element-wise success of the dict-rebuild loop: when every entry's
key and value validate, the validated keys are hashable, and no two
validated keys (nor any accumulator key) compare equal, the loop
appends exactly the validated pairs, in order. -/
theorem validateEntries_of_forall (cfg : ConfigDict) (keyType valueType : Shape)
    {es ps : List (PyVal × PyVal)}
    (h : List.Forall₂ (fun e p =>
      _do_validation cfg valueType e.2 = .ok p.2 ∧
      _do_validation cfg keyType e.1 = .ok p.1) es ps) :
    ∀ acc : List (PyVal × PyVal),
      (∀ p ∈ ps, hashable p.1 = true) →
      List.Pairwise (fun a b => pyKeyEq a.1 b.1 = false) ps →
      (∀ a ∈ acc, ∀ p ∈ ps, pyKeyEq a.1 p.1 = false) →
      validateEntries cfg keyType valueType es acc = .ok (acc ++ ps) := by
  induction h with
  | nil =>
    intro acc _ _ _
    unfold validateEntries
    simp
  | @cons e p es2 ps2 hep htail ih =>
    intro acc hhash hpair hacc
    obtain ⟨k, v⟩ := e
    obtain ⟨k2, v2⟩ := p
    have hv : _do_validation cfg valueType v = .ok v2 := hep.1
    have hk : _do_validation cfg keyType k = .ok k2 := hep.2
    have hh : hashable k2 = true := by
      simpa using hhash (k2, v2) (by simp)
    have hany : acc.any (fun a => pyKeyEq a.1 k2) = false := by
      rw [List.any_eq_false]
      intro a ha
      simp [hacc a ha (k2, v2) (by simp)]
    have hsd : dictSetItem acc k2 v2 = .ok (acc ++ [(k2, v2)]) := by
      unfold dictSetItem
      rw [hh, hany]
      simp
    have hhead : ∀ q ∈ ps2, pyKeyEq k2 q.1 = false := by
      intro q hq
      exact (List.pairwise_cons.mp hpair).1 q hq
    have haccNext : ∀ a ∈ acc ++ [(k2, v2)], ∀ q ∈ ps2, pyKeyEq a.1 q.1 = false := by
      intro a ha q hq
      rcases List.mem_append.mp ha with ha2 | ha2
      · exact hacc a ha2 q (List.mem_cons_of_mem _ hq)
      · have : a = (k2, v2) := by simpa using ha2
        subst this
        exact hhead q hq
    have ihr := ih (acc ++ [(k2, v2)])
      (fun q hq => hhash q (List.mem_cons_of_mem _ hq))
      ((List.pairwise_cons.mp hpair).2) haccNext
    unfold validateEntries
    rw [hv, hk]
    simp [hsd, ihr]

/-- **C4.** A one-pair dict annotation applied to a value that is
already a dict rebuilds: the result is a freshly constructed dict —
never the original object, even when every entry already matched — of
the annotation's concrete kind, whose entries are exactly
`validate(keyShape, k) -> validate(valueShape, v)` for the entries
`(k, v)` of the input (stated here for validated keys that are hashable
and pairwise distinct, so no insertion overwrites another). -/
theorem C4_mapping_rebuild (cfg : ConfigDict) (keyType valueType : Shape)
    (oid : Option Nat) (es ps : List (PyVal × PyVal))
    (h : List.Forall₂ (fun e p =>
      _do_validation cfg valueType e.2 = .ok p.2 ∧
      _do_validation cfg keyType e.1 = .ok p.1) es ps)
    (hhash : ∀ p ∈ ps, hashable p.1 = true)
    (hpair : List.Pairwise (fun a b => pyKeyEq a.1 b.1 = false) ps) :
    _do_validation cfg (.sdict [(keyType, valueType)]) (.vdict oid es) =
      .ok (.vdict none ps) ∧
    (∀ j, oid = some j → (PyVal.vdict none ps) ≠ .vdict oid es) := by
  constructor
  · unfold _do_validation
    simp [validateEntries_of_forall cfg keyType valueType h [] hhash hpair
      (by intro a ha; simp at ha)]
  · rintro j rfl hcontra
    injection hcontra with h1 h2
    cases h1

/-- Witness for C4: the spec's mapping example
`validate(Mapping(int, str), {123: "abc", "456": 12312})` returns a
fresh dict `{123: "abc", 456: "12312"}` — the matching entry keeps its
original key and value objects, the others are coerced — and the result
is not the original dict object. -/
theorem C4_witness :
    _do_validation ⟨true, true, false⟩ (.sdict [(.ty .int, .ty .str)])
      (.vdict (some 0) [(.vint (some 1) 123, .vstr (some 2) "abc"),
                        (.vstr (some 3) "456", .vint (some 4) 12312)]) =
      .ok (.vdict none [(.vint (some 1) 123, .vstr (some 2) "abc"),
                        (.vint none 456, .vstr none "12312")]) ∧
    (PyVal.vdict none [(.vint (some 1) 123, .vstr (some 2) "abc"),
                       (.vint none 456, .vstr none "12312")] ≠
      .vdict (some 0) [(.vint (some 1) 123, .vstr (some 2) "abc"),
                       (.vstr (some 3) "456", .vint (some 4) 12312)]) := by
  have h := C4_mapping_rebuild ⟨true, true, false⟩ (.ty .int) (.ty .str) (some 0)
    [(.vint (some 1) 123, .vstr (some 2) "abc"),
     (.vstr (some 3) "456", .vint (some 4) 12312)]
    [(.vint (some 1) 123, .vstr (some 2) "abc"),
     (.vint none 456, .vstr none "12312")]
    (by
      refine .cons ⟨?_, ?_⟩ (.cons ⟨?_, ?_⟩ .nil) <;> (unfold _do_validation; rfl))
    (by
      intro p hp
      simp at hp
      rcases hp with rfl | rfl <;> simp [hashable])
    (by
      refine List.pairwise_cons.mpr ⟨?_, List.pairwise_singleton _ _⟩
      intro q hq
      simp only [List.mem_singleton] at hq
      subst hq
      simp [pyKeyEq, numAsComplex, pyFloatEq, PyFloat.ofInt])
  exact ⟨h.1, h.2 0 rfl⟩

/-- All subshapes of a mapped class list have their `__name__`, joined
with comma-space. -/
theorem joinSubNames_types (ts : List PyType) :
    joinSubNames (ts.map .ty) = .ok (String.intercalate ", " (ts.map PyType.name)) := by
  have hmap : subNames (ts.map Shape.ty) = some (ts.map PyType.name) := by
    induction ts with
    | nil => rfl
    | cons t ts ih => simp [subNames, shapeSubName, ih]
  unfold joinSubNames
  rw [hmap]

/-- **C7.** A fixed-arity sequence annotation of `N > 1` classes, given
an ordered container of any other length, raises the
`ArgumentLengthMismatch` `TypeError` whose message is exactly
`"Argument length mismatch. Expected a <kind> of <t1>, <t2>, ...."`,
naming the annotation's own container kind and the element classes
joined by comma-space. -/
theorem C7_length_mismatch (cfg : ConfigDict) (ts : List PyType)
    (oid : Option Nat) (xs : List PyVal)
    (hlen : 1 < ts.length) (hne : xs.length ≠ ts.length) :
    _do_validation cfg (.stuple (ts.map .ty)) (.vtuple oid xs) =
      .error (.typeError ("Argument length mismatch. Expected a tuple of " ++
        String.intercalate ", " (ts.map PyType.name) ++ ".")) ∧
    _do_validation cfg (.slist (ts.map .ty)) (.vlist oid xs) =
      .error (.typeError ("Argument length mismatch. Expected a list of " ++
        String.intercalate ", " (ts.map PyType.name) ++ ".")) := by
  obtain ⟨t1, ts1, rfl⟩ : ∃ t1 ts1, ts = t1 :: ts1 := by
    cases ts with
    | nil => simp at hlen
    | cons a l => exact ⟨a, l, rfl⟩
  obtain ⟨t2, ts2, rfl⟩ : ∃ t2 ts2, ts1 = t2 :: ts2 := by
    cases ts1 with
    | nil => simp at hlen
    | cons a l => exact ⟨a, l, rfl⟩
  have hcond : ¬(((t1 :: t2 :: ts2).map Shape.ty).length = xs.length) := by
    simp only [List.length_map]
    exact fun hx => hne hx.symm
  have hmsg : lengthMismatchError "tuple" ((t1 :: t2 :: ts2).map .ty) =
      .typeError ("Argument length mismatch. Expected a tuple of " ++
        String.intercalate ", " ((t1 :: t2 :: ts2).map PyType.name) ++ ".") := by
    unfold lengthMismatchError
    rw [joinSubNames_types]
    rfl
  have hmsg2 : lengthMismatchError "list" ((t1 :: t2 :: ts2).map .ty) =
      .typeError ("Argument length mismatch. Expected a list of " ++
        String.intercalate ", " ((t1 :: t2 :: ts2).map PyType.name) ++ ".") := by
    unfold lengthMismatchError
    rw [joinSubNames_types]
    rfl
  constructor
  · have step : _do_validation cfg (.stuple ((t1 :: t2 :: ts2).map .ty)) (.vtuple oid xs) =
        .error (lengthMismatchError "tuple" ((t1 :: t2 :: ts2).map .ty)) := by
      unfold _do_validation validateSeq
      dsimp only [seqElems]
      rw [if_neg hcond]
      rfl
    rw [step, hmsg]
  · have step : _do_validation cfg (.slist ((t1 :: t2 :: ts2).map .ty)) (.vlist oid xs) =
        .error (lengthMismatchError "list" ((t1 :: t2 :: ts2).map .ty)) := by
      simp only [List.map_cons]
      unfold _do_validation validateSeq
      dsimp only [seqElems]
      rw [if_neg (show ¬((Shape.ty t1 :: Shape.ty t2 :: ts2.map Shape.ty).length = xs.length) by
        simpa using hcond)]
      rfl
    rw [step, hmsg2]

/-- Witness for C7: the tests' example — annotation `(float, int, str)`
against a 2-tuple — produces exactly
`"Argument length mismatch. Expected a tuple of float, int, str."`,
and the list-kinded annotation names its own kind. -/
theorem C7_witness :
    _do_validation ⟨true, true, false⟩
      (.stuple [.ty .float, .ty .int, .ty .str])
      (.vtuple (some 0) [.vstr (some 1) "123", .vfloat (some 2) ⟨12312, 100⟩]) =
      .error (.typeError "Argument length mismatch. Expected a tuple of float, int, str.") ∧
    _do_validation ⟨true, true, false⟩
      (.slist [.ty .float, .ty .int, .ty .str])
      (.vlist (some 0) [.vstr (some 1) "123", .vfloat (some 2) ⟨12312, 100⟩]) =
      .error (.typeError "Argument length mismatch. Expected a list of float, int, str.") := by
  have h := C7_length_mismatch ⟨true, true, false⟩ [.float, .int, .str] (some 0)
    [.vstr (some 1) "123", .vfloat (some 2) ⟨12312, 100⟩]
    (by decide) (by decide)
  exact ⟨h.1.trans (by rfl), h.2.trans (by rfl)⟩

end Pychecked
